import Mathlib

/-!
Verification of the specifier-resolution and emission-orchestration core of
django-typomatic's `generate_ts` management command
(src/django_typomatic/management/commands/generate_ts.py), via a shallow
embedding in Lean.

Modelling conventions:
* A Python class object is a `PyObject` carrying the attributes the command
  inspects: `__name__` (`pyName`), `__module__` (`pyModule`), whether
  `inspect.isclass` holds (`isClass`) and whether it is a subclass of
  `rest_framework.serializers.BaseSerializer` (`isBaseSerializerSub`).
* A loaded module is its attribute dictionary: an association list from
  attribute name to bound object; `dir(module)` enumerates the keys and
  `getattr` looks one up. `sys.modules` is an association list from module
  name to module (`SysModules`).
* Python's substring operator `a in b` on strings is `strContains b a`.
* `dir(None)` (the case where `sys.modules.get` missed) returns the attribute
  names of `NoneType`, all of which begin with an underscore; they are listed
  concretely in `none_type_attrs`.
-/

namespace GenerateTs

/-- A Python object as observed by the command: its `__name__`, `__module__`,
`inspect.isclass` status and whether it derives from `BaseSerializer`. -/
structure PyObject where
  isClass : Bool
  pyName : String
  pyModule : String
  isBaseSerializerSub : Bool
deriving DecidableEq

/-- A loaded Python module: its attribute dictionary. -/
structure Module where
  bindings : List (String × PyObject)
deriving DecidableEq

/-- The `sys.modules` registry: module name to loaded module. -/
def SysModules := List (String × Module)

/-- Check whether the character list `p` is an initial segment of `l`. -/
def leadMatch : List Char → List Char → Bool
  | [], _ => true
  | _ :: _, [] => false
  | a :: as, b :: bs => a == b && leadMatch as bs

/-- Check whether the character list `p` occurs contiguously inside `l`. -/
def subMatch (p : List Char) : List Char → Bool
  | [] => leadMatch p []
  | l@(_ :: rest) => leadMatch p l || subMatch p rest

/-- Python's `sub in s` for strings: `sub` occurs as a substring of `s`. -/
def strContains (s sub : String) : Bool :=
  subMatch sub.toList s.toList

/-- Split a character list at every occurrence of the separator `c`,
mirroring Python's `str.split(sep)` on a single-character separator. -/
def splitCh (c : Char) : List Char → List (List Char)
  | [] => [[]]
  | a :: rest =>
    match splitCh c rest with
    | [] => [[]]
    | h :: t => if a == c then [] :: h :: t else (a :: h) :: t

/-- Python's `s.split('.')`. -/
def split_dots (s : String) : List String :=
  (splitCh '.' s.toList).map (fun l => String.mk l)

/-- Python's `name.startswith('_')`. -/
def underscore_first (n : String) : Bool :=
  leadMatch ['_'] n.toList

/-- The attribute names of Python's `NoneType`, as returned by `dir(None)`:
every one of them starts with an underscore. -/
def none_type_attrs : List String :=
  ["__bool__", "__class__", "__delattr__", "__dir__", "__doc__", "__eq__",
   "__format__", "__ge__", "__getattribute__", "__gt__", "__hash__",
   "__init__", "__init_subclass__", "__le__", "__lt__", "__ne__", "__new__",
   "__reduce__", "__reduce_ex__", "__repr__", "__setattr__", "__sizeof__",
   "__str__", "__subclasshook__"]

/-- `sys.modules.get(module_name, None)`. -/
def lookup_module (sysm : SysModules) (n : String) : Option Module :=
  (List.find? (fun e => e.1 == n) sysm).map Prod.snd

/-- `dir(module)` where `module` may be `None`: for a real module the keys of
its attribute dictionary, for `None` the attributes of `NoneType`. -/
def module_dir : Option Module → List String
  | none => none_type_attrs
  | some m => m.bindings.map Prod.fst

/-- `getattr(module, n)`; never consulted on `None` by the command because
every `NoneType` attribute name is filtered out beforehand. -/
def module_getattr : Option Module → String → Option PyObject
  | none, _ => none
  | some m, n => (List.find? (fun b => b.1 == n) m.bindings).map Prod.snd

/-- The guard `serializer_name and serializer_class.__name__ != serializer_name`
of the source: truthy exactly when a non-empty name was requested and the
candidate's `__name__` differs. -/
def name_skip : Option String → PyObject → Bool
  | none, _ => false
  | some s, c => if s == "" then false else c.pyName != s

/-- The body of the `for serializer_class_name in possibly_serializers` loop of
`_get_serializers_for_module`: walk the candidate names in order, skipping
non-classes, objects whose `__module__` does not contain the scanned module
name as a substring, name mismatches, and non-`BaseSerializer` classes. -/
def scan_names (m : Option Module) (module_name : String)
    (serializer_name : Option String) : List String → List PyObject
  | [] => []
  | n :: rest =>
    match module_getattr m n with
    | none => scan_names m module_name serializer_name rest
    | some cls =>
      if !cls.isClass then
        scan_names m module_name serializer_name rest
      else if !strContains cls.pyModule module_name then
        scan_names m module_name serializer_name rest
      else if name_skip serializer_name cls then
        scan_names m module_name serializer_name rest
      else if cls.isBaseSerializerSub then
        cls :: scan_names m module_name serializer_name rest
      else
        scan_names m module_name serializer_name rest

/-- `_get_serializers_for_module(module_name, serializer_name)`: look the
module up in `sys.modules`, enumerate its public (non-underscore-prefixed)
attribute names, and keep the serializer classes among them. -/
def get_serializers_for_module (sysm : SysModules) (module_name : String)
    (serializer_name : Option String) : List PyObject :=
  let module := lookup_module sysm module_name
  let possibly_serializers :=
    (module_dir module).filter (fun n => !underscore_first n)
  scan_names module module_name serializer_name possibly_serializers

/-- `Command._get_app_serializers(app_name)`. -/
def get_app_serializers (sysm : SysModules) (app_name : String) : List PyObject :=
  get_serializers_for_module sysm (app_name ++ ".serializers") none

/-- The per-specifier dispatch of `Command.handle`: split on dots; one segment
scans `<name>.serializers`, two segments scan `<name>` filtered to the given
class name, three or more scan the whole specifier as a module path. -/
def resolve_specifier (sysm : SysModules) (s : String) : List PyObject :=
  let user_input := split_dots s
  if user_input.length == 1 then
    get_serializers_for_module sysm (user_input.headD "" ++ ".serializers") none
  else if user_input.length == 2 then
    get_serializers_for_module sysm (user_input.headD "")
      (some (user_input.getD 1 ""))
  else
    get_serializers_for_module sysm s none

/-- The declarative form of the keep-condition applied by
`_get_serializers_for_module` to each enumerated candidate. -/
def keep_pred (module_name : String) (serializer_name : Option String)
    (c : PyObject) : Bool :=
  c.isClass && strContains c.pyModule module_name &&
    !name_skip serializer_name c && c.isBaseSerializerSub

/-- The public candidates the scan enumerates: objects bound to
non-underscore-prefixed attribute names of the scanned module. -/
def public_candidates (sysm : SysModules) (module_name : String) : List PyObject :=
  ((module_dir (lookup_module sysm module_name)).filter
      (fun n => !underscore_first n)).filterMap
    (module_getattr (lookup_module sysm module_name))

/-- Default-valued lookup in an association list. -/
def lookupD {α : Type} : List (String × α) → String → α → α
  | [], _, d => d
  | (k', v') :: t, k, d => if k' == k then v' else lookupD t k d

/-- Update or insert a key in an association list. -/
def setAssoc {α : Type} : List (String × α) → String → α → List (String × α)
  | [], k, v => [(k, v)]
  | (k', v') :: t, k, v =>
    if k' == k then (k, v) :: t else (k', v') :: setAssoc t k v

/-- Modelled from the spec: the emitter collaborator's `register_declaration`
(the `ts_interface(context=...)` call of `django_typomatic`, whose source is
not under src/). Per the spec it is pure in-memory bookkeeping and a set-like
operation keyed by declared name within the context: the declared name is
added to the context's registry unless already present. -/
def register_decl (reg : List (String × List String)) (ctx n : String) :
    List (String × List String) :=
  let cur := lookupD reg ctx []
  if cur.contains n then reg else setAssoc reg ctx (cur ++ [n])

/-- The state accumulated across one command invocation: the emitter's
per-context registry, the written files (context key to emitted content,
modelled from the spec's flush contract), the log of flush invocations in
order (context key and content written), and the stdout labels. -/
structure RunState where
  registry : List (String × List String)
  files : List (String × List String)
  flushLog : List (String × List String)
  labels : List String
deriving DecidableEq

/-- The empty state at the start of an invocation. -/
def initial_state : RunState := ⟨[], [], [], []⟩

/-- The OutputContext key computed by `Command._generate_ts`:
`serializer_class.__module__.split(".")[0]`. -/
def assigned_context (c : PyObject) : String :=
  (split_dots c.pyModule).headD ""

/-- `Command._generate_ts(serializer_class, output, **options)`: compute the
context from the first segment of `__module__`, register the class under that
context (`ts_interface(context=app_name)(serializer_class)`), invoke the
emitter's flush for that context (`generate_ts(output_path, context=app_name,
...)`, which writes the context's accumulated content to
`<output>/<app_name>/index.ts`; content modelled from the spec), and write the
observability label. -/
def generate_ts_decl (st : RunState) (cls : PyObject) : RunState :=
  let app_name := assigned_context cls
  let reg := register_decl st.registry app_name cls.pyName
  let content := lookupD reg app_name []
  { registry := reg
    files := setAssoc st.files app_name content
    flushLog := st.flushLog ++ [(app_name, content)]
    labels := st.labels ++ ["[+] " ++ cls.pyModule ++ "." ++ cls.pyName] }

/-- An element of the `serializers` list inside `Command.handle`: user-supplied
entries are strings, while `--all` expansion appends serializer class
objects. -/
inductive SpecEntry where
  | str (s : String)
  | cls (c : PyObject)
deriving DecidableEq

/-- A Django `AppConfig` as consulted by `--all` mode: `app.name` and
`app.path`. -/
structure AppConfig where
  name : String
  path : String
deriving DecidableEq

/-- The `--all` expansion of `Command.handle`: for every installed app whose
path contains `str(settings.BASE_DIR.parent)` and does not contain `.venv`,
append the serializer classes of `<app.name>.serializers` to the specifier
list. Note that class objects, not app names, are appended. -/
def expand_all (sysm : SysModules) (app_configs : List AppConfig)
    (base_dir_parent : String) : List SpecEntry :=
  (app_configs.filter
      (fun a => strContains a.path base_dir_parent && !strContains a.path ".venv")).flatMap
    (fun a => (get_app_serializers sysm a.name).map SpecEntry.cls)

/-- The message of the `CommandError` raised when both selection modes are
given. -/
def config_error_msg : String :=
  "Only --all or --serializers must be specified, not together"

/-- One iteration of the `for serializer in serializers` loop of
`Command.handle`. A string entry is split and resolved, and every resolved
class is processed by `_generate_ts`; a class object entry (appended by
`--all` mode) hits `serializer.split('.')`, which raises `AttributeError`
because a class has no `split` method. -/
def process_entry (sysm : SysModules) (st : RunState) :
    SpecEntry → Except String RunState
  | SpecEntry.cls c =>
    Except.error ("AttributeError: type object " ++ c.pyName ++
      " has no attribute split")
  | SpecEntry.str s =>
    Except.ok ((resolve_specifier sysm s).foldl generate_ts_decl st)

/-- `Command.handle(*args, serializers, output, all, **options)`: raise
`CommandError` when `all and serializers` is truthy (the flag together with a
non-empty list), otherwise extend the specifier list by the `--all` expansion
when requested and run the processing loop over it. -/
def handle (sysm : SysModules) (app_configs : List AppConfig)
    (base_dir_parent : String) (serializers : List String) (all_flag : Bool) :
    Except String RunState :=
  if all_flag && !serializers.isEmpty then
    Except.error config_error_msg
  else
    let entries := serializers.map SpecEntry.str ++
      (if all_flag then expand_all sysm app_configs base_dir_parent else [])
    entries.foldlM (process_entry sysm) initial_state

/-- The number of flush invocations a run performed for a given context key;
zero when the run aborted with an error. -/
def run_flush_count (r : Except String RunState) (k : String) : Nat :=
  match r with
  | Except.error _ => 0
  | Except.ok st => (st.flushLog.filter (fun e => e.1 == k)).length

/-- Modelled from the spec (for comparison with `resolve_specifier`): the
claimed two-segment resolution, "same namespace resolution as case 1" (the
conventional `serializers` sub-namespace of the package) "but additionally
filter to the single declaration whose `declared_name` equals `Name`". -/
def spec_resolve_two (sysm : SysModules) (ns nm : String) : List PyObject :=
  (get_serializers_for_module sysm (ns ++ ".serializers") none).filter
    (fun c => c.pyName == nm)

/-- A serializer class defined in `myapp.serializers` but bound (imported)
into `app.serializers`; note `"app.serializers"` is a substring of
`"myapp.serializers"` without being equal to it. -/
def sharedC1 : PyObject := ⟨true, "Shared", "myapp.serializers", true⟩

/-- A `sys.modules` in which `app.serializers` merely re-exports a class
defined elsewhere. -/
def sysC1 : SysModules := [("app.serializers", ⟨[("Shared", sharedC1)]⟩)]

/-- A serializer class defined in `billing.serializers`. -/
def fooC2 : PyObject := ⟨true, "Foo", "billing.serializers", true⟩

/-- A `sys.modules` where the package module `billing` binds nothing while
`billing.serializers` defines `Foo`. -/
def sysC2 : SysModules :=
  [("billing", ⟨[]⟩), ("billing.serializers", ⟨[("Foo", fooC2)]⟩)]

/-- A serializer class defined and bound in the package module `billing`. -/
def fooW2 : PyObject := ⟨true, "Foo", "billing", true⟩

/-- A `sys.modules` where the package module `billing` itself binds `Foo`. -/
def sysW2 : SysModules := [("billing", ⟨[("Foo", fooW2)]⟩)]

/-- First of two serializer classes defined in `app.serializers`. -/
def aC3 : PyObject := ⟨true, "ASerial", "app.serializers", true⟩

/-- Second of two serializer classes defined in `app.serializers`. -/
def bC3 : PyObject := ⟨true, "BSerial", "app.serializers", true⟩

/-- A `sys.modules` where `app.serializers` defines two serializer classes,
both destined for the `app` output context. -/
def sysC3 : SysModules :=
  [("app.serializers", ⟨[("ASerial", aC3), ("BSerial", bC3)]⟩)]

/-- A serializer class defined in `shop.serializers`. -/
def invC5 : PyObject := ⟨true, "InvoiceSerializer", "shop.serializers", true⟩

/-- A `sys.modules` for a project app `shop` with one serializer. -/
def sysC5 : SysModules :=
  [("shop.serializers", ⟨[("InvoiceSerializer", invC5)]⟩)]

/-- A serializer class defined in `app6.serializers`, named `S`. -/
def sW6 : PyObject := ⟨true, "S", "app6.serializers", true⟩

/-- A `sys.modules` whose module `app6` defines a single serializer `S` (so a
lookup for the name `Nope` misses). -/
def sysW6 : SysModules := [("app6", ⟨[("S", sW6)]⟩)]

/-- A declaration whose defining module is `app.x`. -/
def cW7a : PyObject := ⟨true, "A", "app.x", true⟩

/-- A declaration whose defining module is `app.y`, sharing the top-level
segment `app` with `cW7a`. -/
def cW7b : PyObject := ⟨true, "B", "app.y", true⟩

/-- A serializer class defined in the nested namespace
`app.serializers.internal`. -/
def subC8 : PyObject := ⟨true, "SubSerial", "app.serializers.internal", true⟩

/-- A `sys.modules` holding a nested serializers submodule. -/
def sysC8 : SysModules :=
  [("app.serializers.internal", ⟨[("SubSerial", subC8)]⟩)]

theorem scan_names_eq (m : Option Module) (mn : String) (sn : Option String)
    (l : List String) :
    scan_names m mn sn l = (l.filterMap (module_getattr m)).filter (keep_pred mn sn) := by
  induction l with
  | nil => rfl
  | cons n rest ih =>
    simp only [scan_names, List.filterMap_cons]
    cases h : module_getattr m n with
    | none => simpa using ih
    | some cls =>
      simp only [List.filter_cons, keep_pred]
      by_cases hc : cls.isClass = true <;>
        by_cases hs : strContains cls.pyModule mn = true <;>
          by_cases hk : name_skip sn cls = true <;>
            by_cases hb : cls.isBaseSerializerSub = true <;>
              simp [hc, hs, hk, hb, ih]

theorem get_serializers_eq_filter (sysm : SysModules) (mn : String)
    (sn : Option String) :
    get_serializers_for_module sysm mn sn
      = (public_candidates sysm mn).filter (keep_pred mn sn) := by
  unfold get_serializers_for_module public_candidates
  exact scan_names_eq _ _ _ _

theorem lookupD_setAssoc_self {α : Type} (l : List (String × α)) (k : String)
    (v : α) (d : α) : lookupD (setAssoc l k v) k d = v := by
  induction l with
  | nil => simp [setAssoc, lookupD]
  | cons e t ih =>
    by_cases h : e.1 == k
    · simp [setAssoc, lookupD, h]
    · cases e
      simp_all [setAssoc, lookupD, h]

theorem register_idem (reg : List (String × List String)) (ctx n : String) :
    register_decl (register_decl reg ctx n) ctx n = register_decl reg ctx n := by
  simp only [register_decl]
  by_cases h : (lookupD reg ctx []).contains n = true
  · rw [if_pos h, if_pos h]
  · rw [if_neg h]
    rw [lookupD_setAssoc_self reg ctx (lookupD reg ctx [] ++ [n]) ([] : List String)]
    have hin : ((lookupD reg ctx [] ++ [n]).contains n) = true := by
      simp [List.contains]
    rw [if_pos hin]

theorem handle_aux (sysm : SysModules) (l : List String) (st : RunState) :
    (l.map SpecEntry.str).foldlM (process_entry sysm) st
      = Except.ok ((l.flatMap (resolve_specifier sysm)).foldl generate_ts_decl st) := by
  induction l generalizing st with
  | nil => rfl
  | cons s rest ih =>
    simp only [List.map_cons, List.foldlM_cons, List.flatMap_cons,
      List.foldl_append, process_entry]
    rw [show ∀ (a : RunState) (f : RunState → Except String RunState),
          (Except.ok a >>= f) = f a from fun _ _ => rfl]
    exact ih _

theorem flushLog_fold (L : List PyObject) (st : RunState) :
    ((L.foldl generate_ts_decl st).flushLog).map Prod.fst
      = st.flushLog.map Prod.fst ++ L.map assigned_context := by
  induction L generalizing st with
  | nil => simp
  | cons c rest ih =>
    simp only [List.foldl_cons, List.map_cons, ih, generate_ts_decl]
    simp

theorem filter_fst_length {α : Type} (k : String) (l : List (String × α)) :
    (l.filter (fun e => e.1 == k)).length
      = ((l.map Prod.fst).filter (fun x => x == k)).length := by
  induction l with
  | nil => rfl
  | cons e t ih =>
    by_cases h : e.1 == k <;> simp [List.filter_cons, h, ih]

theorem filter_map_length (k : String) (L : List PyObject) :
    ((L.map assigned_context).filter (fun x => x == k)).length
      = (L.filter (fun c => assigned_context c == k)).length := by
  induction L with
  | nil => rfl
  | cons c t ih =>
    by_cases h : assigned_context c == k <;> simp [List.filter_cons, h, ih]

/-- C1 (counterexample): the claim that `resolve` keeps a candidate only if
its `qualified_origin` equals the scanned namespace is false: scanning
`app.serializers`, the class `Shared` merely imported there from
`myapp.serializers` is kept, because the source's filter is the substring
test `module_name not in serializer_class.__module__`, not an equality. -/
theorem c1_counterexample :
    get_serializers_for_module sysC1 "app.serializers" none = [sharedC1] ∧
    sharedC1.pyModule ≠ "app.serializers" :=
  ⟨rfl, by decide⟩

/-- C1 (amended): for every scanned namespace, `resolve` keeps an enumerated
candidate exactly when it is a class, the scanned namespace occurs as a
substring of its `qualified_origin`, and it derives from the recognized base
serializer type; so classes defined in the scanned namespace are kept, but a
class imported into it whose defining module path merely contains the scanned
namespace as a substring is not excluded. -/
theorem c1_amended (sysm : SysModules) (mn : String) :
    get_serializers_for_module sysm mn none
      = (public_candidates sysm mn).filter
          (fun c => c.isClass && strContains c.pyModule mn &&
            c.isBaseSerializerSub) := by
  rw [get_serializers_eq_filter]
  apply List.filter_congr
  intro c _
  simp [keep_pred, name_skip]

/-- C2 (counterexample): for the two-segment specifier `billing.Foo` the code
does not perform the same namespace resolution as the one-segment case: with
`Foo` defined in `billing.serializers` but not bound in the package module
`billing`, the code resolves `billing.Foo` to the empty list, while the
claimed behavior (`spec_resolve_two`: scan `billing.serializers`, then filter
to `declared_name = Foo`) yields `Foo`. -/
theorem c2_counterexample :
    resolve_specifier sysC2 "billing.Foo" = [] ∧
    spec_resolve_two sysC2 "billing" "Foo" = [fooC2] :=
  ⟨rfl, rfl⟩

/-- C2 (amended): for every two-segment specifier `namespace.Name`, the code
scans the module named by the first segment itself (not its `serializers`
sub-namespace) and filters to declarations whose `declared_name` equals
`Name`; every resolved declaration carries that name, and when none matches
the result is empty rather than an error. -/
theorem c2_amended (sysm : SysModules) (s : String)
    (h : (split_dots s).length = 2) :
    resolve_specifier sysm s
      = get_serializers_for_module sysm ((split_dots s).headD "")
          (some ((split_dots s).getD 1 "")) ∧
    ∀ c ∈ resolve_specifier sysm s,
      (split_dots s).getD 1 "" ≠ "" → c.pyName = (split_dots s).getD 1 "" := by
  have h1 : ((split_dots s).length == 1) = false := by simp [h]
  have h2 : ((split_dots s).length == 2) = true := by simp [h]
  have heq : resolve_specifier sysm s
      = get_serializers_for_module sysm ((split_dots s).headD "")
          (some ((split_dots s).getD 1 "")) := by
    simp [resolve_specifier, h1, h2]
  refine ⟨heq, ?_⟩
  intro c hc hne
  rw [heq, get_serializers_eq_filter] at hc
  have hp := (List.mem_filter.mp hc).2
  simp only [keep_pred, Bool.and_eq_true, Bool.not_eq_true'] at hp
  have hk := hp.1.2
  have hne' : (((split_dots s).getD 1 "") == "") = false := by
    simpa using hne
  simp only [name_skip, hne'] at hk
  simpa using hk

/-- Witness for `c2_amended`: the concrete two-segment specifier
`billing.Foo` against a registry whose package module `billing` itself binds
`Foo`. -/
theorem c2_amended_witness :
    resolve_specifier sysW2 "billing.Foo"
      = get_serializers_for_module sysW2 ((split_dots "billing.Foo").headD "")
          (some ((split_dots "billing.Foo").getD 1 "")) ∧
    ∀ c ∈ resolve_specifier sysW2 "billing.Foo",
      (split_dots "billing.Foo").getD 1 "" ≠ "" →
        c.pyName = (split_dots "billing.Foo").getD 1 "" :=
  c2_amended sysW2 "billing.Foo" (by decide)

/-- C3 (counterexample): in the run `--serializers app` over a project where
`app.serializers` defines two serializer classes, the `app` output context is
flushed (its output file written by `generate_ts`) twice in the invocation,
not exactly once. -/
theorem c3_counterexample :
    run_flush_count (handle sysC3 [] "/p" ["app"] false) "app" = 2 := by
  decide

/-- C3 (amended): in an explicit-specifier invocation, each output context is
flushed once per declaration destined for it — the flush for a declaration's
context is invoked immediately after that declaration is registered — so a
context fed by n declarations is flushed n times, with the final flush
occurring after all of them are registered. -/
theorem c3_amended (sysm : SysModules) (apps : List AppConfig) (base : String)
    (sers : List String) (k : String) :
    run_flush_count (handle sysm apps base sers false) k
      = ((sers.flatMap (resolve_specifier sysm)).filter
          (fun c => assigned_context c == k)).length := by
  have hh : handle sysm apps base sers false
      = Except.ok ((sers.flatMap (resolve_specifier sysm)).foldl
          generate_ts_decl initial_state) := by
    show (sers.map SpecEntry.str ++ []).foldlM (process_entry sysm)
        initial_state = _
    rw [List.append_nil]
    exact handle_aux sysm sers initial_state
  rw [hh]
  simp only [run_flush_count]
  rw [filter_fst_length, flushLog_fold]
  show ((([] : List (String × List String)).map Prod.fst ++ _).filter _).length = _
  rw [List.map_nil, List.nil_append, filter_map_length]

/-- C4: when the all-packages flag is supplied together with a non-empty
explicit specifier list, `handle` fails with the `CommandError` configuration
message, for every module registry and app list alike — no resolution is
consulted and no state is produced. -/
theorem c4_mutual_exclusion (sysm : SysModules) (apps : List AppConfig)
    (base : String) (sers : List String) (h : sers ≠ []) :
    handle sysm apps base sers true = Except.error config_error_msg := by
  have he : sers.isEmpty = false := by
    cases sers with
    | nil => exact absurd rfl h
    | cons a t => rfl
  simp [handle, he]

/-- Witness for `c4_mutual_exclusion` at a concrete non-empty specifier
list. -/
theorem c4_witness :
    handle ([] : SysModules) [] "" ["x"] true = Except.error config_error_msg :=
  c4_mutual_exclusion [] [] "" ["x"] (by decide)

/-- C5: under all-packages mode the code appends the kept apps' serializer
class objects — not their package names — to the specifier list, so the
subsequent `serializer.split('.')` raises `AttributeError` as soon as any
surviving app has a serializer: the run aborts instead of resolving the
expanded specifiers. -/
theorem c5_all_mode_crash :
    handle sysC5 [⟨"shop", "/proj/shop"⟩] "/proj" [] true
      = Except.error
          "AttributeError: type object InvoiceSerializer has no attribute split" ∧
    expand_all sysC5 [⟨"shop", "/proj/shop"⟩] "/proj"
      = [SpecEntry.cls invC5] :=
  ⟨rfl, rfl⟩

/-- C6: a namespace that resolves to no loaded module yields the empty set
rather than an error; a requested declaration name matched by no kept
declaration yields the empty set; and processing a string specifier never
produces an error, so the run continues with the remaining specifiers. -/
theorem c6_resolution_miss :
    (∀ (sysm : SysModules) (mn : String) (sn : Option String),
        lookup_module sysm mn = none →
          get_serializers_for_module sysm mn sn = []) ∧
    (∀ (sysm : SysModules) (mn n : String), n ≠ "" →
        (∀ c ∈ get_serializers_for_module sysm mn none, c.pyName ≠ n) →
          get_serializers_for_module sysm mn (some n) = []) ∧
    (∀ (sysm : SysModules) (st : RunState) (s : String),
        (process_entry sysm st (SpecEntry.str s)).isOk = true) := by
  refine ⟨?_, ?_, ?_⟩
  · intro sysm mn sn h
    simp only [get_serializers_for_module, h]
    have hf : (module_dir none).filter (fun n => !underscore_first n) = [] := by
      decide
    rw [hf]
    rfl
  · intro sysm mn n hne hforall
    rw [get_serializers_eq_filter] at hforall ⊢
    rw [List.filter_eq_nil_iff]
    intro c hc hp
    simp only [keep_pred, Bool.and_eq_true, Bool.not_eq_true'] at hp
    obtain ⟨⟨⟨hc1, hc2⟩, hk⟩, hc4⟩ := hp
    have hne' : (n == "") = false := by simpa using hne
    simp only [name_skip, hne'] at hk
    have hpn : c.pyName = n := by simpa using hk
    have hcnone : c ∈ (public_candidates sysm mn).filter (keep_pred mn none) :=
      List.mem_filter.mpr ⟨hc, by simp [keep_pred, name_skip, hc1, hc2, hc4]⟩
    exact hforall c hcnone hpn
  · intro sysm st s
    rfl

/-- Witness for `c6_resolution_miss`: a namespace absent from `sys.modules`,
a name that matches no declaration of a populated namespace, and the
continuation of the processing loop. -/
theorem c6_witness :
    get_serializers_for_module ([] : SysModules) "ghost" none = [] ∧
    get_serializers_for_module sysW6 "app6" (some "Nope") = [] ∧
    (process_entry ([] : SysModules) initial_state
        (SpecEntry.str "ghost")).isOk = true :=
  ⟨c6_resolution_miss.1 [] "ghost" none rfl,
   c6_resolution_miss.2.1 sysW6 "app6" "Nope" (by decide) (by decide),
   c6_resolution_miss.2.2 [] initial_state "ghost"⟩

/-- C7: the output context of a processed declaration is the first
dot-separated segment of its `qualified_origin` (`__module__`), the flush
performed for it targets exactly that context whatever the current run state
(hence whatever specifier shape reached it), and two declarations whose
origins share the first segment are assigned the same context. -/
theorem c7_context_assignment (st : RunState) (c1 c2 : PyObject)
    (h : (split_dots c1.pyModule).headD "" = (split_dots c2.pyModule).headD "") :
    assigned_context c1 = (split_dots c1.pyModule).headD "" ∧
    (generate_ts_decl st c1).flushLog
      = st.flushLog ++ [(assigned_context c1,
          lookupD (generate_ts_decl st c1).registry (assigned_context c1) [])] ∧
    assigned_context c1 = assigned_context c2 :=
  ⟨rfl, rfl, h⟩

/-- Witness for `c7_context_assignment`: two declarations defined in `app.x`
and `app.y`, both assigned to the `app` context. -/
theorem c7_witness :
    assigned_context cW7a = (split_dots cW7a.pyModule).headD "" ∧
    (generate_ts_decl initial_state cW7a).flushLog
      = initial_state.flushLog ++ [(assigned_context cW7a,
          lookupD (generate_ts_decl initial_state cW7a).registry
            (assigned_context cW7a) [])] ∧
    assigned_context cW7a = assigned_context cW7b :=
  c7_context_assignment initial_state cW7a cW7b (by decide)

/-- C8: every specifier of three or more dot-separated segments is resolved
by scanning the module named by the whole specifier string: the result is the
public (non-underscore-prefixed) bindings of that namespace, filtered by the
class/origin/serializer keep-condition. -/
theorem c8_submodule_path (sysm : SysModules) (s : String)
    (h : 3 ≤ (split_dots s).length) :
    resolve_specifier sysm s
      = (public_candidates sysm s).filter (keep_pred s none) := by
  have hn1 : (split_dots s).length ≠ 1 := by omega
  have hn2 : (split_dots s).length ≠ 2 := by omega
  have h1 : ((split_dots s).length == 1) = false := by simpa using hn1
  have h2 : ((split_dots s).length == 2) = false := by simpa using hn2
  simp only [resolve_specifier, h1, h2, Bool.false_eq_true, if_false]
  exact get_serializers_eq_filter sysm s none

/-- Witness for `c8_submodule_path`: the three-segment specifier
`app.serializers.internal`. -/
theorem c8_witness :
    3 ≤ (split_dots "app.serializers.internal").length ∧
    resolve_specifier sysC8 "app.serializers.internal"
      = (public_candidates sysC8 "app.serializers.internal").filter
          (keep_pred "app.serializers.internal" none) :=
  ⟨by decide, c8_submodule_path sysC8 "app.serializers.internal" (by decide)⟩

/-- C9: registration is idempotent — processing the same declaration twice
leaves the registry exactly as processing it once does, and starting from the
empty state the context's registry holds a single entry for the declaration's
name, so one entry is emitted, not two. -/
theorem c9_idempotent_registration (st : RunState) (c : PyObject) :
    (generate_ts_decl (generate_ts_decl st c) c).registry
      = (generate_ts_decl st c).registry ∧
    lookupD (generate_ts_decl (generate_ts_decl initial_state c) c).registry
        (assigned_context c) [] = [c.pyName] := by
  constructor
  · show register_decl
        (register_decl st.registry (assigned_context c) c.pyName)
        (assigned_context c) c.pyName
      = register_decl st.registry (assigned_context c) c.pyName
    exact register_idem _ _ _
  · show lookupD (register_decl
        (register_decl [] (assigned_context c) c.pyName)
        (assigned_context c) c.pyName) (assigned_context c) [] = [c.pyName]
    rw [register_idem]
    show lookupD (setAssoc ([] : List (String × List String))
        (assigned_context c) ([] ++ [c.pyName])) (assigned_context c) []
      = [c.pyName]
    rw [lookupD_setAssoc_self]
    rfl

/-- C10: supplying the all-packages flag with an empty explicit specifier
list raises no configuration error: `handle` proceeds directly to all-mode
expansion and processing, because the mutual-exclusion check tests
non-emptiness of the list, not the presence of the flag. -/
theorem c10_empty_specifiers_with_all (sysm : SysModules)
    (apps : List AppConfig) (base : String) :
    handle sysm apps base [] true
      = (expand_all sysm apps base).foldlM (process_entry sysm)
          initial_state :=
  rfl

end GenerateTs
